import Mathlib

/-!
Verification development for the HiFiPy post-processing loader
(`hifipy/io/io.py`).  The Python source works on numpy float64 arrays read
from HDF5/XMF files in a directory.  The shallow embedding below models

* float64 scalars as `FVal` (an exact rational together with the two
  infinities and NaN; signed zero is not modelled, `0.0` is treated as the
  non-negative zero, which matches numpy's behaviour on the operations the
  code performs),
* numpy 1D/2D/3D arrays as nested lists of `FVal`,
* a simulation output directory as a `Dir` record holding the results of
  the three `glob` patterns (`grid*.h5`, `post*.h5`, `post*.xmf`) together
  with the file contents; `glob` returns the entries in unspecified order
  and the source sorts them, which is modelled by `sortByName`,
* `np.double` applied to a timestamp substring as `pyFloat`, a parser for
  the ordinary decimal/exponent float literals (with surrounding
  whitespace) that occur in XMF time lines,
* Python exceptions as the `Err` inductive, one constructor per distinct
  raise site of the source.
-/

namespace HiFiPy

/-- Decidable equality for `Except` results (used to evaluate the
pipeline on concrete directories). -/
instance {ε α : Type} [DecidableEq ε] [DecidableEq α] :
    DecidableEq (Except ε α) := fun a b =>
  match a, b with
  | .ok x, .ok y =>
    if h : x = y then .isTrue (by rw [h])
    else .isFalse (by intro hc; injection hc; contradiction)
  | .error x, .error y =>
    if h : x = y then .isTrue (by rw [h])
    else .isFalse (by intro hc; injection hc; contradiction)
  | .ok _, .error _ => .isFalse (by intro hc; injection hc)
  | .error _, .ok _ => .isFalse (by intro hc; injection hc)

/-- An exact rational number as numerator/denominator, kept in canonical
form (denominator positive, fraction reduced) by the smart constructor
`mkQ`; every value produced by the pipeline is canonical, so structural
equality coincides with equality of the represented rationals.  (A
separate type is used instead of Mathlib's `ℚ` because these values must
evaluate inside `decide`.) -/
structure Q where
  n : ℤ
  d : ℕ
deriving DecidableEq, Repr

/-- Canonicalising constructor: normalises the sign into the numerator
and divides out the gcd. -/
def mkQ (a b : ℤ) : Q :=
  let s : ℤ := if b < 0 then -a else a
  let dn : ℕ := b.natAbs
  let g := Nat.gcd s.natAbs dn
  if g = 0 then ⟨0, 0⟩ else ⟨s / (g : ℤ), dn / g⟩

namespace Q

/-- The canonical zero. -/
def zero : Q := ⟨0, 1⟩

/-- Embed an integer. -/
def ofInt (a : ℤ) : Q := ⟨a, 1⟩

/-- Embed a natural number. -/
def ofNat (a : ℕ) : Q := ⟨(a : ℤ), 1⟩

/-- Negation (canonical-form preserving). -/
def neg (a : Q) : Q := ⟨-a.n, a.d⟩

/-- Addition. -/
def add (a b : Q) : Q := mkQ (a.n * (b.d : ℤ) + b.n * (a.d : ℤ)) ((a.d : ℤ) * (b.d : ℤ))

/-- Subtraction. -/
def sub (a b : Q) : Q := add a (neg b)

/-- Multiplication. -/
def mul (a b : Q) : Q := mkQ (a.n * b.n) ((a.d : ℤ) * (b.d : ℤ))

/-- Division (callers guard the zero divisor). -/
def div (a b : Q) : Q := mkQ (a.n * (b.d : ℤ)) ((a.d : ℤ) * b.n)

/-- Is the value zero? -/
def isZero (a : Q) : Bool := a.n == 0

/-- Is the value strictly positive?  (Canonical denominators are
positive, so the sign lives in the numerator.) -/
def isPos (a : Q) : Bool := 0 < a.n

/-- Is the value strictly negative? -/
def isNeg (a : Q) : Bool := a.n < 0

end Q

/-- Float64-style scalar value: a finite (exact) rational, `+inf`, `-inf`
or NaN.  Signed zero is not modelled. -/
inductive FVal
  | fin (q : Q)
  | pinf
  | ninf
  | nan
deriving DecidableEq, Repr

namespace FVal

/-- IEEE negation (elementwise `-` on numpy arrays). -/
def neg : FVal → FVal
  | fin q => fin (Q.neg q)
  | pinf => ninf
  | ninf => pinf
  | nan => nan

/-- IEEE addition on the modelled scalars. -/
def add : FVal → FVal → FVal
  | nan, _ => nan
  | _, nan => nan
  | fin a, fin b => fin (Q.add a b)
  | pinf, ninf => nan
  | ninf, pinf => nan
  | pinf, _ => pinf
  | _, pinf => pinf
  | ninf, _ => ninf
  | _, ninf => ninf

/-- IEEE subtraction, `a - b = a + (-b)` on the modelled scalars. -/
def sub (a b : FVal) : FVal := add a (neg b)

/-- IEEE multiplication on the modelled scalars. -/
def mul : FVal → FVal → FVal
  | nan, _ => nan
  | _, nan => nan
  | fin a, fin b => fin (Q.mul a b)
  | fin a, pinf => if a.isZero then nan else if a.isPos then pinf else ninf
  | pinf, fin b => if b.isZero then nan else if b.isPos then pinf else ninf
  | fin a, ninf => if a.isZero then nan else if a.isPos then ninf else pinf
  | ninf, fin b => if b.isZero then nan else if b.isPos then ninf else pinf
  | pinf, pinf => pinf
  | pinf, ninf => ninf
  | ninf, pinf => ninf
  | ninf, ninf => pinf

/-- IEEE division (`np.divide` / the `/` operator on float64 arrays):
division by zero yields `±inf` for a nonzero numerator and NaN for `0/0`;
it never raises. -/
def div : FVal → FVal → FVal
  | nan, _ => nan
  | _, nan => nan
  | fin a, fin b =>
      if b.isZero then (if a.isZero then nan else if a.isPos then pinf else ninf)
      else fin (Q.div a b)
  | fin _, pinf => fin Q.zero
  | fin _, ninf => fin Q.zero
  | pinf, fin b => if b.isNeg then ninf else pinf
  | ninf, fin b => if b.isNeg then pinf else ninf
  | pinf, pinf => nan
  | pinf, ninf => nan
  | ninf, pinf => nan
  | ninf, ninf => nan

/-- IEEE `==` comparison: NaN compares unequal to everything (used by
`np.gradient` when it tests whether the coordinate spacings are uniform). -/
def ieeeEq : FVal → FVal → Bool
  | nan, _ => false
  | _, nan => false
  | fin a, fin b => a == b
  | pinf, pinf => true
  | ninf, ninf => true
  | _, _ => false

/-- True exactly on the two infinities. -/
def isInf : FVal → Bool
  | pinf => true
  | ninf => true
  | _ => false

/-- True exactly on NaN. -/
def isNaN : FVal → Bool
  | nan => true
  | _ => false

/-- True exactly on the finite value zero (the float `0.0`). -/
def isZeroF : FVal → Bool
  | fin q => q.isZero
  | _ => false

end FVal

/-- A numpy 1D float array. -/
abbrev Arr1 := List FVal

/-- A numpy 2D float array (list of rows). -/
abbrev Arr2 := List Arr1

/-- A numpy 3D float array (list of 2D time slices). -/
abbrev Arr3 := List Arr2

/-- Lift a rational matrix to a 2D float array. -/
def q2f (a : List (List ℤ)) : Arr2 := a.map (List.map (fun v => FVal.fin (Q.ofInt v)))

/-- Entry `a[i, j]` of a 2D array (NaN default out of range). -/
def at2 (a : Arr2) (i j : ℕ) : FVal := (a.getD i []).getD j FVal.nan

/-- Entry `a[t, i, j]` of a 3D array (NaN default out of range). -/
def at3 (a : Arr3) (t i j : ℕ) : FVal := at2 (a.getD t []) i j

/-- The 2D array has exactly `r` rows, each of length `c`. -/
def HasShape2 (a : Arr2) (r c : ℕ) : Prop :=
  a.length = r ∧ ∀ row ∈ a, row.length = c

instance (a : Arr2) (r c : ℕ) : Decidable (HasShape2 a r c) := by
  unfold HasShape2; infer_instance

/-- The 3D array has exactly `t` slices, each of shape `(r, c)`. -/
def HasShape3 (a : Arr3) (t r c : ℕ) : Prop :=
  a.length = t ∧ ∀ sl ∈ a, HasShape2 sl r c

instance (a : Arr3) (t r c : ℕ) : Decidable (HasShape3 a t r c) := by
  unfold HasShape3; infer_instance

/-- Elementwise negation of a 2D array (`-arr` in numpy). -/
def neg2 (a : Arr2) : Arr2 := a.map (List.map FVal.neg)

/-- Elementwise negation of a 3D array. -/
def neg3 (a : Arr3) : Arr3 := a.map neg2

/-- Elementwise `np.divide` of two same-shaped 2D arrays. -/
def div2 (a b : Arr2) : Arr2 := List.zipWith (List.zipWith FVal.div) a b

/-- Elementwise `np.divide` of two same-shaped 3D arrays. -/
def div3 (a b : Arr3) : Arr3 := List.zipWith div2 a b

/-- Map with an `Option`-valued function, failing if any element fails
(the shape of a Python loop whose body may raise, caught as a whole). -/
def mapO {α β : Type} (g : α → Option β) : List α → Option (List β)
  | [] => some []
  | x :: xs =>
    match g x, mapO g xs with
    | some y, some ys => some (y :: ys)
    | _, _ => none

/-- Errors of the modelled pipeline: one constructor per distinct raise
site of `io.py`.  The table of Python classes is
`notADirectory` = the `IOError`s "must be a directory" and the `postpath`
setter's `ValueError`; `gridNotFound` = `IOError "Grid file not found."`;
`indexError` = Python `IndexError` from indexing an empty axis;
`timestampParse` = `IOError "Unable to read in the time from .xmf
files."`; `countMismatch` = `IOError "Mismatch in number of HDF5 and XMF
files."`; `emptyDataset` = `IOError "No HDF5 files are found ..."`;
`invalidName` = `TypeError "simID must be a string or None."`;
`nameErrorPostpath` = the `NameError` raised when the `except` block of
`_get_file_list_and_time` evaluates the unbound name `postpath`;
`keyError`/`shapeMismatch` = `KeyError`/broadcast `ValueError` during the
stacking pass; `distancesMismatch`/`gradientTooSmall` = the two
`ValueError`s of `np.gradient`. -/
inductive Err
  | notADirectory
  | gridNotFound
  | indexError
  | timestampParse
  | countMismatch
  | emptyDataset
  | invalidName
  | nameErrorPostpath
  | keyError (k : String)
  | shapeMismatch
  | distancesMismatch
  | gradientTooSmall
deriving DecidableEq, Repr

/-- Map with an `Except`-valued function, propagating the first error
(the shape of a Python loop whose body may raise). -/
def mapE {α β : Type} (g : α → Except Err β) : List α → Except Err (List β)
  | [] => .ok []
  | x :: xs =>
    match g x with
    | .error e => .error e
    | .ok y =>
      match mapE g xs with
      | .error e => .error e
      | .ok ys => .ok (y :: ys)

/-- Code-point comparison of characters (Python string `<`). -/
def chLt (c d : Char) : Bool := c.toNat < d.toNat

/-- Lexicographic code-point comparison of character lists. -/
def strLtL : List Char → List Char → Bool
  | [], [] => false
  | [], _ :: _ => true
  | _ :: _, [] => false
  | c :: cs, d :: ds => chLt c d || (c == d && strLtL cs ds)

/-- Python string `<` (lexicographic by code point). -/
def strLt (s t : String) : Bool := strLtL s.data t.data

/-- Stable sorted insert by a name key (helper for `sortByName`). -/
def insertSorted {α : Type} (key : α → String) (a : α) : List α → List α
  | [] => [a]
  | b :: bs =>
    if strLt (key b) (key a) then b :: insertSorted key a bs else a :: b :: bs

/-- Python `list.sort()` on file names: stable sort by name, modelling
`files.sort()` applied to a `glob.glob` result. -/
def sortByName {α : Type} (key : α → String) : List α → List α
  | [] => []
  | a :: rest => insertSorted key a (sortByName key rest)

/-- Python slice `s[a:b]` on a string (clamping, never raising). -/
def pySlice (s : String) (a b : ℕ) : String :=
  String.mk ((s.data.drop a).take (b - a))

/-- Whitespace recognised when `np.double` strips a string. -/
def isWsC (c : Char) : Bool := c == ' ' || c == '\t' || c == '\n' || c == '\r'

/-- Decimal digit test. -/
def isDigitC (c : Char) : Bool := 48 ≤ c.toNat && c.toNat ≤ 57

/-- Numeric value of a digit string (most significant first). -/
def natOfDigits (ds : List Char) : ℕ :=
  ds.foldl (fun acc c => 10 * acc + (c.toNat - 48)) 0

/-- Modelled `np.double` applied to a string: parses an optionally signed
decimal literal with optional fractional part and optional `e`/`E`
exponent, surrounded by optional whitespace; everything else fails.
(The special spellings `inf`/`nan` accepted by numpy are outside the
modelled subset; the timestamp lines the code parses are plain literals.)
`none` models the raised `ValueError`. -/
def pyFloat (s : String) : Option Q :=
  let cs := ((s.data.dropWhile isWsC).reverse.dropWhile isWsC).reverse
  let sgncs : ℤ × List Char :=
    match cs with
    | '+' :: r => (1, r)
    | '-' :: r => (-1, r)
    | r => (1, r)
  let sgn := sgncs.1
  let cs1 := sgncs.2
  let ip := cs1.takeWhile isDigitC
  let rest1 := cs1.dropWhile isDigitC
  let hasDot : Bool := match rest1 with | '.' :: _ => true | _ => false
  let fp := if hasDot then rest1.tail.takeWhile isDigitC else []
  let rest2 := if hasDot then rest1.tail.dropWhile isDigitC else rest1
  if ip.isEmpty && fp.isEmpty then none
  else
    let mant : Q :=
      Q.mul (Q.ofInt sgn)
        (Q.add (Q.ofNat (natOfDigits ip))
          (Q.div (Q.ofNat (natOfDigits fp)) (Q.ofNat (10 ^ fp.length))))
    match rest2 with
    | [] => some mant
    | c :: r =>
      if c == 'e' || c == 'E' then
        let esgnr : Bool × List Char :=
          match r with
          | '+' :: q => (false, q)
          | '-' :: q => (true, q)
          | q => (false, q)
        let ed := esgnr.2.takeWhile isDigitC
        let r3 := esgnr.2.dropWhile isDigitC
        if ed.isEmpty || !r3.isEmpty then none
        else
          some (if esgnr.1 then Q.div mant (Q.ofNat (10 ^ natOfDigits ed))
                else Q.mul mant (Q.ofNat (10 ^ natOfDigits ed)))
      else none

/-- A `grid*.h5` file: name plus the two 2D coordinate arrays stored
under keys `U01` (x mesh) and `U02` (y mesh). -/
structure GridFile where
  name : String
  U01 : Arr2
  U02 : Arr2
deriving DecidableEq, Repr

/-- A `post*.h5` data file: name plus its keyed 2D datasets. -/
structure H5File where
  name : String
  fields : List (String × Arr2)
deriving DecidableEq, Repr

/-- A `post*.xmf` metadata file: name plus its text lines (the trailing
newline of each line is dropped; `np.double` strips whitespace anyway). -/
structure XmfFile where
  name : String
  lines : List String
deriving DecidableEq, Repr

/-- A (candidate) simulation output directory: whether the path is a
directory at all, and the (unsorted) results of the three glob patterns
`grid*.h5`, `post*.h5`, `post*.xmf`, with file contents attached. -/
structure Dir where
  isDir : Bool
  gridFiles : List GridFile
  h5Files : List H5File
  xmfFiles : List XmfFile
deriving DecidableEq, Repr

/-- Default XMF file used by positional lookups. -/
def defXmf : XmfFile := { name := "", lines := [] }

/-- Default H5 file used by positional lookups. -/
def defH5 : H5File := { name := "", fields := [] }

/-- `read_grid` (io.py:37-69): require a directory, glob `grid*.h5`,
fail when none is found, sort, open the first, read `U01`/`U02` and
project row 0 of the first and column 0 of the second. -/
def read_grid (d : Dir) : Except Err (Arr2 × Arr2 × Arr1 × Arr1) :=
  if d.isDir = false then .error .notADirectory
  else
    match sortByName GridFile.name d.gridFiles with
    | [] => .error .gridNotFound
    | g :: _ =>
      match g.U01.head?, mapO List.head? g.U02 with
      | some x1, some y1 => .ok (g.U01, g.U02, x1, y1)
      | _, _ => .error .indexError

/-- Timestamp extraction of `find_files_and_time` (io.py:98-104): line
index 5 of each metadata file, characters 18-30, parsed by `np.double`. -/
def parseLine (lines : List String) : Option Q :=
  match lines.get? 5 with
  | none => none
  | some l => pyFloat (pySlice l 18 30)

/-- The scan loop of `find_files_and_time`: `for i in range(0, nfilemax)`
indexes the sorted XMF list and parses each timestamp; any failure
(missing index or parse failure) fails the whole loop. -/
def scanTimes (fx : List XmfFile) (nfilemax : ℕ) : Option (List Q) :=
  mapO (fun i =>
      match fx.get? i with
      | none => none
      | some xf => parseLine xf.lines)
    (List.range nfilemax)

/-- `find_files_and_time` (io.py:72-106): require a directory, glob and
sort `post*.h5` and `post*.xmf`, then run the timestamp scan over
`range(len(files_h5))`; any exception in the scan is converted into the
single `IOError` (`timestampParse`). -/
def find_files_and_time (d : Dir) :
    Except Err (List H5File × List XmfFile × List Q) :=
  if d.isDir = false then .error .notADirectory
  else
    match scanTimes (sortByName XmfFile.name d.xmfFiles)
        (sortByName H5File.name d.h5Files).length with
    | none => .error .timestampParse
    | some time =>
      .ok (sortByName H5File.name d.h5Files,
        sortByName XmfFile.name d.xmfFiles, time)

/-- `read_directory` (io.py:109-143): require a directory, call
`find_files_and_time`, fail on a data/metadata count mismatch, open every
HDF5 file (modelled as yielding its recorded content), and fail when the
resulting list is empty. -/
def read_directory (d : Dir) : Except Err (List H5File × List Q) :=
  if d.isDir = false then .error .notADirectory
  else
    match find_files_and_time d with
    | .error e => .error e
    | .ok (fh, fx, time) =>
      if fh.length ≠ fx.length then .error .countMismatch
      else if fh.length < 1 then .error .emptyDataset
      else .ok (fh, time)

/-- One point of numpy's 1D second-order gradient (`np.gradient` with
`edge_order=2`) for coordinate array `coords` and values `f` (assumed of
equal length `n ≥ 3`, as checked by `np_gradient2`).  Follows numpy's
`function_base.py`: spacings `dxs = np.diff(coords)`; if all spacings
compare IEEE-equal to the first, the uniform-spacing formulas are used,
otherwise the general nonuniform ones. -/
def grad1 (coords f : Arr1) : Arr1 :=
  let n := f.length
  let dxs := List.zipWith FVal.sub (coords.drop 1) coords
  let d0 := dxs.headD FVal.nan
  let uni := dxs.all (fun dd => FVal.ieeeEq dd d0)
  let fg := fun i => f.getD i FVal.nan
  let dg := fun i => dxs.getD i FVal.nan
  (List.range n).map (fun i =>
    if i = 0 then
      if uni then
        FVal.add
          (FVal.add (FVal.mul (FVal.div (FVal.fin (mkQ (-3) 2)) d0) (fg 0))
            (FVal.mul (FVal.div (FVal.fin (Q.ofInt 2)) d0) (fg 1)))
          (FVal.mul (FVal.div (FVal.fin (mkQ (-1) 2)) d0) (fg 2))
      else
        let dx1 := dg 0
        let dx2 := dg 1
        let a := FVal.div (FVal.neg (FVal.add (FVal.mul (FVal.fin (Q.ofInt 2)) dx1) dx2))
          (FVal.mul dx1 (FVal.add dx1 dx2))
        let b := FVal.div (FVal.add dx1 dx2) (FVal.mul dx1 dx2)
        let c := FVal.div (FVal.neg dx1) (FVal.mul dx2 (FVal.add dx1 dx2))
        FVal.add (FVal.add (FVal.mul a (fg 0)) (FVal.mul b (fg 1)))
          (FVal.mul c (fg 2))
    else if i = n - 1 then
      if uni then
        FVal.add
          (FVal.add (FVal.mul (FVal.div (FVal.fin (mkQ 1 2)) d0) (fg (n - 3)))
            (FVal.mul (FVal.div (FVal.fin (Q.ofInt (-2))) d0) (fg (n - 2))))
          (FVal.mul (FVal.div (FVal.fin (mkQ 3 2)) d0) (fg (n - 1)))
      else
        let dx1 := dg (n - 3)
        let dx2 := dg (n - 2)
        let a := FVal.div dx2 (FVal.mul dx1 (FVal.add dx1 dx2))
        let b := FVal.div (FVal.neg (FVal.add dx2 dx1)) (FVal.mul dx1 dx2)
        let c := FVal.div (FVal.add (FVal.mul (FVal.fin (Q.ofInt 2)) dx2) dx1)
          (FVal.mul dx2 (FVal.add dx1 dx2))
        FVal.add (FVal.add (FVal.mul a (fg (n - 3))) (FVal.mul b (fg (n - 2))))
          (FVal.mul c (fg (n - 1)))
    else
      if uni then
        FVal.div (FVal.sub (fg (i + 1)) (fg (i - 1))) (FVal.mul (FVal.fin (Q.ofInt 2)) d0)
      else
        let dx1 := dg (i - 1)
        let dx2 := dg i
        let a := FVal.div (FVal.neg dx2) (FVal.mul dx1 (FVal.add dx1 dx2))
        let b := FVal.div (FVal.sub dx2 dx1) (FVal.mul dx1 dx2)
        let c := FVal.div dx1 (FVal.mul dx2 (FVal.add dx1 dx2))
        FVal.add (FVal.add (FVal.mul a (fg (i - 1))) (FVal.mul b (fg i)))
          (FVal.mul c (fg (i + 1))))

/-- Column `j` of a 2D array. -/
def colOf (m : Arr2) (j : ℕ) : Arr1 := m.map (fun r => r.getD j FVal.nan)

/-- Gradient of a 2D array along axis 0 (the row/`y` axis). -/
def gradAxis0 (m : Arr2) (cy : Arr1) : Arr2 :=
  let nx := (m.headD []).length
  let gcols := (List.range nx).map (fun j => grad1 cy (colOf m j))
  (List.range m.length).map (fun i => gcols.map (fun g => g.getD i FVal.nan))

/-- Gradient of a 2D array along axis 1 (the column/`x` axis). -/
def gradAxis1 (m : Arr2) (cx : Arr1) : Arr2 := m.map (grad1 cx)

/-- `np.gradient(M, cy, cx, edge_order=2)` on a 2D array: the coordinate
arrays must match the corresponding axis lengths (else `ValueError`), each
axis must have at least `edge_order + 1 = 3` points (else `ValueError`);
the result is the pair (derivative along axis 0 taken against `cy`,
derivative along axis 1 taken against `cx`) — i.e. `(∂M/∂y, ∂M/∂x)` when
rows are indexed by `y` and columns by `x`. -/
def np_gradient2 (m : Arr2) (cy cx : Arr1) : Except Err (Arr2 × Arr2) :=
  if cy.length ≠ m.length ∨ cx.length ≠ (m.headD []).length then
    .error .distancesMismatch
  else if m.length < 3 ∨ (m.headD []).length < 3 then
    .error .gradientTooSmall
  else .ok (gradAxis0 m cy, gradAxis1 m cx)

/-- `_B_from_Az` (io.py:233-239): for each timestep compute
`np.gradient(Az[t], y, x, edge_order=2)` and collect component 0 into
`Bx` and component 1 into `By`. -/
def computeB (az : Arr3) (y x : Arr1) : Except Err (Arr3 × Arr3) :=
  match mapE (fun sl => np_gradient2 sl y x) az with
  | .error e => .error e
  | .ok l => .ok (l.map Prod.fst, l.map Prod.snd)

/-- The key list `[f"U{'0' if n < 10 else ''}{n}" for n in range(1, 14)]`
of `_assign_variables_to__data_dict` (io.py:202), written out. -/
def keys13 : List String :=
  ["U01", "U02", "U03", "U04", "U05", "U06", "U07",
   "U08", "U09", "U10", "U11", "U12", "U13"]

/-- The stacking pass for one key (io.py:211-214): for each time index
copy `file_list[t][key][:, :]` into the `(nt, ny, nx)` destination; a
missing key raises `KeyError` and a slice whose shape is not `(ny, nx)`
raises the broadcast `ValueError` (broadcasting of degenerate shapes is
not modelled).  On success the stack is the list of the per-time 2D
arrays. -/
def stackOne (fl : List H5File) (nt ny nx : ℕ) (k : String) :
    Except Err Arr3 :=
  mapE (fun t =>
      match fl.get? t with
      | none => .error .indexError
      | some f =>
        match f.fields.lookup k with
        | none => .error (.keyError k)
        | some a => if HasShape2 a ny nx then .ok a else .error .shapeMismatch)
    (List.range nt)

/-- The full stacking pass over the thirteen keys, in source order. -/
def stackAll (fl : List H5File) (nt ny nx : ℕ) : Except Err (List Arr3) :=
  mapE (stackOne fl nt ny nx) keys13

/-- The 2D dataset stored under key `k` of `file_list[t]` (empty array
default), used to state theorems about the stacked fields. -/
def h5Field (fl : List H5File) (t : ℕ) (k : String) : Arr2 :=
  ((fl.getD t defH5).fields.lookup k).getD []

/-- The value passed as `simID`: `None`, a string, or (representing any
non-string, non-`None` Python object) an integer. -/
inductive PyObj
  | pynone
  | pystr (s : String)
  | pyint (n : ℤ)
deriving DecidableEq, Repr

/-- `isinstance(simID, str) or simID is None`. -/
def PyObj.isStrOrNone : PyObj → Bool
  | .pynone => true
  | .pystr _ => true
  | .pyint _ => false

/-- The `name` setter (io.py:258-260): `simID if simID is not None else
"no ID"` (reached only for string-or-`None` values). -/
def nameOf : PyObj → String
  | .pystr s => s
  | _ => "no ID"

/-- The constructed `hifi_class` object: its `_data` entries after a
successful `__init__`.  `Nx`, `Ny`, `Nt` are not stored — they are the
computed-on-access properties defined below. -/
structure Dataset where
  name : String
  file_list : List H5File
  x : Arr1
  y : Arr1
  time : List Q
  ni : Arr3
  Az : Arr3
  Bz : Arr3
  Vix : Arr3
  Viy : Arr3
  Viz : Arr3
  Jz : Arr3
  pp : Arr3
  nn : Arr3
  Vnx : Arr3
  Vny : Arr3
  Vnz : Arr3
  pn : Arr3
  Bx : Arr3
  By : Arr3
deriving DecidableEq, Repr

/-- Property `Nx` (io.py:350-352): computed on access as `len(self.x)`. -/
def Dataset.Nx (ds : Dataset) : ℕ := ds.x.length

/-- Property `Ny` (io.py:354-356): computed on access as `len(self.y)`. -/
def Dataset.Ny (ds : Dataset) : ℕ := ds.y.length

/-- Property `Nt` (io.py:358-360): computed on access as
`len(self.time)`. -/
def Dataset.Nt (ds : Dataset) : ℕ := ds.time.length

/-- `hifi_class.__init__` (io.py:241-252) and the helper methods it calls,
in source order: the `simID` type check (`TypeError` before anything
else), the `name` setter (`None ↦ "no ID"`), the `postpath` setter
(directory validation), `_get_grid` (via `read_grid`), the
`_get_file_list_and_time` wrapper — whose `except` block evaluates the
unbound name `postpath` inside an f-string and therefore raises
`NameError` whenever `read_directory` fails — then the stacking pass, the
rename/sign/ratio pass (io.py:216-229) and `_B_from_Az`. -/
def hifi_init (d : Dir) (simID : PyObj) : Except Err Dataset :=
  if simID.isStrOrNone = false then .error .invalidName
  else if d.isDir = false then .error .notADirectory
  else
    match read_grid d with
    | .error e => .error e
    | .ok (_x2, _y2, xx, yy) =>
      match read_directory d with
      | .error _ => .error .nameErrorPostpath
      | .ok (file_list, time) =>
        match stackAll file_list time.length yy.length xx.length with
        | .error e => .error e
        | .ok l =>
          match computeB (neg3 (l.getD 1 [])) yy xx with
          | .error e => .error e
          | .ok p =>
            .ok { name := nameOf simID,
                  file_list := file_list, x := xx, y := yy, time := time,
                  ni := l.getD 0 [], Az := neg3 (l.getD 1 []),
                  Bz := l.getD 2 [],
                  Vix := div3 (l.getD 3 []) (l.getD 0 []),
                  Viy := div3 (l.getD 4 []) (l.getD 0 []),
                  Viz := div3 (l.getD 5 []) (l.getD 0 []),
                  Jz := l.getD 6 [], pp := l.getD 7 [], nn := l.getD 8 [],
                  Vnx := div3 (l.getD 9 []) (l.getD 0 []),
                  Vny := div3 (l.getD 10 []) (l.getD 0 []),
                  Vnz := div3 (l.getD 11 []) (l.getD 0 []),
                  pn := l.getD 12 [], Bx := p.1, By := p.2 }

/-! Concrete inputs used by witnesses and counterexamples: a well-formed
one-timestep directory on a 3×3 grid, and small malformed variants. -/

/-- A 3×3 constant matrix. -/
def c33 (v : ℤ) : Arr2 := q2f [[v, v, v], [v, v, v], [v, v, v]]

/-- Example grid file: `x_2D` rows are `[0,1,2]`, `y_2D` columns are
`[0,1,2]` (a rectilinear 3×3 mesh with unit spacing). -/
def gridEx : GridFile :=
  { name := "grid_00000.h5",
    U01 := q2f [[0, 1, 2], [0, 1, 2], [0, 1, 2]],
    U02 := q2f [[0, 0, 0], [1, 1, 1], [2, 2, 2]] }

/-- Example data file: `U01` has a zero entry at `(2,2)` (zero density),
`U02` equals `-y` so that `Az = y`; the other keys are constants. -/
def postEx : H5File :=
  { name := "post_00000.h5",
    fields :=
      [("U01", q2f [[1, 1, 1], [1, 1, 1], [1, 1, 0]]),
       ("U02", q2f [[0, 0, 0], [-1, -1, -1], [-2, -2, -2]]),
       ("U03", c33 3), ("U04", c33 2), ("U05", c33 5), ("U06", c33 6),
       ("U07", c33 7), ("U08", c33 8), ("U09", c33 9), ("U10", c33 10),
       ("U11", c33 11), ("U12", c33 12), ("U13", c33 13)] }

/-- A timestamp line: 18 leading spaces, then `0.125` in columns 18-22. -/
def timeLineEx : String := String.mk (List.replicate 18 ' ' ++ "0.125".data)

/-- Example metadata file whose line index 5 carries the timestamp. -/
def xmfEx : XmfFile :=
  { name := "post_00000.xmf", lines := ["a", "b", "c", "d", "e", timeLineEx] }

/-- The well-formed one-timestep example directory. -/
def exDir : Dir :=
  { isDir := true, gridFiles := [gridEx], h5Files := [postEx],
    xmfFiles := [xmfEx] }

/-- Placeholder dataset (used only as a lookup default). -/
def emptyDS : Dataset :=
  { name := "", file_list := [], x := [], y := [], time := [],
    ni := [], Az := [], Bz := [], Vix := [], Viy := [], Viz := [],
    Jz := [], pp := [], nn := [], Vnx := [], Vny := [], Vnz := [],
    pn := [], Bx := [], By := [] }

/-- Extract the dataset of a successful construction. -/
def okOr (e : Except Err Dataset) (dflt : Dataset) : Dataset :=
  match e with
  | .ok v => v
  | .error _ => dflt

/-- The dataset constructed from `exDir`. -/
def exDS : Dataset := okOr (hifi_init exDir .pynone) emptyDS

/-- A metadata file that cannot be parsed (no line index 5 at all). -/
def xmfBad : XmfFile := { name := "post_00001.xmf", lines := [] }

/-- One data file but two metadata files: a count mismatch whose extra
metadata file is malformed. -/
def mismatchDir : Dir := { exDir with xmfFiles := [xmfEx, xmfBad] }

/-- Zero data files but one (well-formed) metadata file. -/
def noH5Dir : Dir := { exDir with h5Files := [], xmfFiles := [xmfEx] }

/-- A directory with no grid file. -/
def noGridDir : Dir := { exDir with gridFiles := [] }

/-- A path that is not a directory. -/
def notDir : Dir :=
  { isDir := false, gridFiles := [], h5Files := [], xmfFiles := [] }

/-- One data file and one metadata file that cannot be parsed. -/
def badTimeDir : Dir := { exDir with xmfFiles := [xmfBad] }

/-- A directory with a grid file but zero data and zero metadata files. -/
def emptyPostDir : Dir := { exDir with h5Files := [], xmfFiles := [] }

/-- The axis `[0, 1, 2]`. -/
def xAxisEx : Arr1 :=
  [FVal.fin (Q.ofInt 0), FVal.fin (Q.ofInt 1), FVal.fin (Q.ofInt 2)]

/-- The value `read_grid` returns on the example directories. -/
def gridVal : Arr2 × Arr2 × Arr1 × Arr1 :=
  (gridEx.U01, gridEx.U02, xAxisEx, xAxisEx)

/-- Claim C1 as stated, at one input: for a successfully constructed
dataset, `By[t]` is the `∂Az/∂y` gradient component (component 0 of
`np.gradient(Az[t], y, x)`) and `Bx[t]` is the `∂Az/∂x` component
(component 1). -/
def ClaimC1 (d : Dir) (simID : PyObj) : Prop :=
  ∀ ds t g0 g1, hifi_init d simID = .ok ds → t < ds.Nt →
    np_gradient2 (ds.Az.getD t []) ds.y ds.x = .ok (g0, g1) →
    ds.By.getD t [] = g0 ∧ ds.Bx.getD t [] = g1

/-- Claim C5 as stated, at one input: a parse failure for ANY metadata
file of the directory (not only the first `len(files_h5)` many) aborts
the scan with the `IOError`. -/
def ClaimC5 (d : Dir) : Prop :=
  d.isDir = true →
    ∀ i, i < (sortByName XmfFile.name d.xmfFiles).length →
      parseLine ((sortByName XmfFile.name d.xmfFiles).getD i defXmf).lines
          = none →
      find_files_and_time d = .error .timestampParse

/-- Claim C6 as stated, at one input: construction fails with the error
class matching the first violated precondition — a non-directory with
`notADirectory`, a directory with no grid file with `gridNotFound`, a
data/metadata count mismatch with `countMismatch`, and zero data files
with `emptyDataset`. -/
def ClaimC6 (d : Dir) : Prop :=
  (d.isDir = false → hifi_init d .pynone = .error .notADirectory) ∧
  (d.isDir = true → d.gridFiles = [] →
    hifi_init d .pynone = .error .gridNotFound) ∧
  (d.isDir = true → d.gridFiles ≠ [] →
    d.h5Files.length ≠ d.xmfFiles.length →
    hifi_init d .pynone = .error .countMismatch) ∧
  (d.isDir = true → d.gridFiles ≠ [] →
    d.h5Files.length = d.xmfFiles.length → d.h5Files = [] →
    hifi_init d .pynone = .error .emptyDataset)

/-- Claim C8 as stated, at one input: for an existing directory with zero
data files the scanner returns successfully with empty file lists (both
of them) and an empty timestamp array. -/
def ClaimC8 (d : Dir) : Prop :=
  d.isDir = true → d.h5Files = [] →
    find_files_and_time d = .ok ([], [], [])

/-!  Inversion and shape lemmas about the embedded pipeline. -/

theorem getD_eq_get {α : Type} (l : List α) (i : ℕ) (h : i < l.length) (dflt : α) :
    l.getD i dflt = l.get ⟨i, h⟩ := by
  induction l generalizing i with
  | nil => simp at h
  | cons x xs ih =>
    cases i with
    | zero => rfl
    | succ n => simpa using ih n (by simpa using h)

theorem getD_map {α β : Type} (f : α → β) (xs : List α) (i : ℕ)
    (h : i < xs.length) (da : α) (db : β) :
    (xs.map f).getD i db = f (xs.getD i da) := by
  induction xs generalizing i with
  | nil => simp at h
  | cons x xs ih =>
    cases i with
    | zero => rfl
    | succ n => simpa using ih n (by simpa using h)

theorem getD_zipWith {α β γ : Type} (f : α → β → γ) (a : List α) (b : List β)
    (i : ℕ) (ha : i < a.length) (hb : i < b.length) (da : α) (db : β) (dc : γ) :
    (List.zipWith f a b).getD i dc = f (a.getD i da) (b.getD i db) := by
  induction a generalizing b i with
  | nil => simp at ha
  | cons x xs ih =>
    cases b with
    | nil => simp at hb
    | cons y ys =>
      cases i with
      | zero => rfl
      | succ n => simpa using ih ys n (by simpa using ha) (by simpa using hb)

theorem getD_range {n i : ℕ} (h : i < n) (dflt : ℕ) :
    (List.range n).getD i dflt = i := by
  rw [getD_eq_get _ _ (by simpa using h), List.get_range]

theorem mapO_ok {α β : Type} {g : α → Option β} {xs : List α} {l : List β}
    (h : mapO g xs = some l) :
    l.length = xs.length ∧
      ∀ i, i < xs.length → ∀ (da : α) (db : β),
        g (xs.getD i da) = some (l.getD i db) := by
  induction xs generalizing l with
  | nil =>
    simp only [mapO, Option.some.injEq] at h
    subst h
    exact ⟨rfl, by intro i hi; simp at hi⟩
  | cons x xs ih =>
    simp only [mapO] at h
    cases hg : g x with
    | none => rw [hg] at h; simp at h
    | some y =>
      rw [hg] at h
      cases hm : mapO g xs with
      | none => rw [hm] at h; simp at h
      | some ys =>
        rw [hm] at h
        simp only [Option.some.injEq] at h
        subst h
        obtain ⟨hlen, helem⟩ := ih hm
        refine ⟨by simp [hlen], ?_⟩
        intro i hi da db
        cases i with
        | zero => simpa using hg
        | succ n => simpa using helem n (by simpa using hi) da db

theorem mapO_none_of_mem {α β : Type} {g : α → Option β} {xs : List α} {x : α}
    (hx : x ∈ xs) (h : g x = none) : mapO g xs = none := by
  induction xs with
  | nil => simp at hx
  | cons a rest ih =>
    rcases List.mem_cons.mp hx with rfl | hmem
    · simp only [mapO]; rw [h]
    · simp only [mapO]
      rw [ih hmem]
      cases g a <;> rfl

theorem mapE_ok {α β : Type} {g : α → Except Err β} {xs : List α} {l : List β}
    (h : mapE g xs = .ok l) :
    l.length = xs.length ∧
      ∀ i, i < xs.length → ∀ (da : α) (db : β),
        g (xs.getD i da) = .ok (l.getD i db) := by
  induction xs generalizing l with
  | nil =>
    simp only [mapE, Except.ok.injEq] at h
    subst h
    exact ⟨rfl, by intro i hi; simp at hi⟩
  | cons x xs ih =>
    simp only [mapE] at h
    cases hg : g x with
    | error e => rw [hg] at h; simp at h
    | ok y =>
      rw [hg] at h
      cases hm : mapE g xs with
      | error e => rw [hm] at h; simp at h
      | ok ys =>
        rw [hm] at h
        simp only [Except.ok.injEq] at h
        subst h
        obtain ⟨hlen, helem⟩ := ih hm
        refine ⟨by simp [hlen], ?_⟩
        intro i hi da db
        cases i with
        | zero => simpa using hg
        | succ n => simpa using helem n (by simpa using hi) da db

theorem length_insertSorted {α : Type} (key : α → String) (a : α)
    (xs : List α) : (insertSorted key a xs).length = xs.length + 1 := by
  induction xs with
  | nil => rfl
  | cons b bs ih =>
    simp only [insertSorted]
    split
    · simp [ih]
    · simp

theorem length_sortByName {α : Type} (key : α → String) (xs : List α) :
    (sortByName key xs).length = xs.length := by
  induction xs with
  | nil => rfl
  | cons a rest ih => simp [sortByName, length_insertSorted, ih]

theorem stackOne_ok {fl : List H5File} {nt ny nx : ℕ} {k : String} {a3 : Arr3}
    (h : stackOne fl nt ny nx k = .ok a3) :
    a3.length = nt ∧
      ∀ t, t < nt →
        ∃ f a, fl.get? t = some f ∧ f.fields.lookup k = some a ∧
          a3.getD t [] = a ∧ HasShape2 a ny nx := by
  obtain ⟨hlen, helem⟩ := mapE_ok h
  refine ⟨by simpa using hlen, ?_⟩
  intro t ht
  have h2 := helem t (by simpa using ht) 0 []
  rw [getD_range ht] at h2
  split at h2
  · simp at h2
  · next f hf =>
    split at h2
    · simp at h2
    · next a ha =>
      split at h2
      · next hs =>
        simp only [Except.ok.injEq] at h2
        exact ⟨f, a, hf, ha, h2.symm, hs⟩
      · simp at h2

theorem stackAll_ok {fl : List H5File} {nt ny nx : ℕ} {l : List Arr3}
    (h : stackAll fl nt ny nx = .ok l) :
    l.length = 13 ∧
      ∀ i, i < 13 →
        stackOne fl nt ny nx (keys13.getD i "") = .ok (l.getD i []) := by
  obtain ⟨hlen, helem⟩ := mapE_ok h
  refine ⟨by simpa [keys13] using hlen, ?_⟩
  intro i hi
  exact helem i (by simpa [keys13] using hi) "" []

theorem computeB_ok {az : Arr3} {y x : Arr1} {bx byA : Arr3}
    (h : computeB az y x = .ok (bx, byA)) :
    bx.length = az.length ∧ byA.length = az.length ∧
      ∀ t, t < az.length →
        np_gradient2 (az.getD t []) y x = .ok (bx.getD t [], byA.getD t []) := by
  unfold computeB at h
  cases hm : mapE (fun sl => np_gradient2 sl y x) az with
  | error e => rw [hm] at h; simp at h
  | ok l =>
    rw [hm] at h
    simp only [Except.ok.injEq, Prod.mk.injEq] at h
    obtain ⟨hbx, hby⟩ := h
    obtain ⟨hlen, helem⟩ := mapE_ok hm
    subst hbx hby
    refine ⟨by simp [hlen], by simp [hlen], ?_⟩
    intro t ht
    have h2 := helem t ht [] ([], [])
    rw [getD_map Prod.fst l t (by rw [hlen]; exact ht) ([], []) []]
    rw [getD_map Prod.snd l t (by rw [hlen]; exact ht) ([], []) []]
    exact h2

theorem getD_mem {α : Type} {l : List α} {i : ℕ} (h : i < l.length) (dflt : α) :
    l.getD i dflt ∈ l := by
  rw [getD_eq_get _ _ h]
  exact List.get_mem l i h

theorem mem_getD {α : Type} {l : List α} {x : α} (hx : x ∈ l) (dflt : α) :
    ∃ i, i < l.length ∧ l.getD i dflt = x := by
  obtain ⟨⟨i, hi⟩, rfl⟩ := List.mem_iff_get.mp hx
  exact ⟨i, hi, getD_eq_get _ _ hi _⟩

/-- Everything a successful `hifi_init` implies: the grid projection went
into `x`/`y`, `read_directory` supplied `file_list`/`time`, the stacking
pass succeeded, and each field of the dataset is exactly the renamed /
sign-flipped / divided combination of the stacks that the source
assigns (with `Bx`/`By` the two components of `_B_from_Az`). -/
theorem hifi_init_ok {d : Dir} {simID : PyObj} {ds : Dataset}
    (h : hifi_init d simID = .ok ds) :
    ∃ x2 y2 l,
      read_grid d = .ok (x2, y2, ds.x, ds.y) ∧
      read_directory d = .ok (ds.file_list, ds.time) ∧
      stackAll ds.file_list ds.time.length ds.y.length ds.x.length = .ok l ∧
      ds.ni = l.getD 0 [] ∧ ds.Az = neg3 (l.getD 1 []) ∧ ds.Bz = l.getD 2 [] ∧
      ds.Vix = div3 (l.getD 3 []) (l.getD 0 []) ∧
      ds.Viy = div3 (l.getD 4 []) (l.getD 0 []) ∧
      ds.Viz = div3 (l.getD 5 []) (l.getD 0 []) ∧
      ds.Jz = l.getD 6 [] ∧ ds.pp = l.getD 7 [] ∧ ds.nn = l.getD 8 [] ∧
      ds.Vnx = div3 (l.getD 9 []) (l.getD 0 []) ∧
      ds.Vny = div3 (l.getD 10 []) (l.getD 0 []) ∧
      ds.Vnz = div3 (l.getD 11 []) (l.getD 0 []) ∧
      ds.pn = l.getD 12 [] ∧
      computeB ds.Az ds.y ds.x = .ok (ds.Bx, ds.By) ∧
      ds.name = nameOf simID := by
  unfold hifi_init at h
  split at h
  · simp at h
  · split at h
    · simp at h
    · split at h
      · simp at h
      · next x2 y2 xx yy hg =>
        split at h
        · simp at h
        · next file_list time hrd =>
          split at h
          · simp at h
          · next l hst =>
            split at h
            · simp at h
            · next p hB =>
              simp only [Except.ok.injEq] at h
              subst h
              refine ⟨x2, y2, l, hg, hrd, hst, rfl, rfl, rfl, rfl, rfl,
                rfl, rfl, rfl, rfl, rfl, rfl, rfl, rfl, ?_, rfl⟩
              simpa using hB

theorem hasShape2_neg2 {a : Arr2} {r c : ℕ} (ha : HasShape2 a r c) :
    HasShape2 (neg2 a) r c := by
  obtain ⟨hal, har⟩ := ha
  constructor
  · simp [neg2, hal]
  · intro row hrow
    obtain ⟨orig, ho, rfl⟩ := List.mem_map.mp hrow
    simp [har orig ho]

theorem hasShape3_neg3 {a : Arr3} {t r c : ℕ} (ha : HasShape3 a t r c) :
    HasShape3 (neg3 a) t r c := by
  obtain ⟨hal, har⟩ := ha
  constructor
  · simp [neg3, hal]
  · intro sl hsl
    obtain ⟨orig, ho, rfl⟩ := List.mem_map.mp hsl
    exact hasShape2_neg2 (har orig ho)

theorem hasShape2_div2 {a b : Arr2} {r c : ℕ} (ha : HasShape2 a r c)
    (hb : HasShape2 b r c) : HasShape2 (div2 a b) r c := by
  obtain ⟨hal, har⟩ := ha
  obtain ⟨hbl, hbr⟩ := hb
  constructor
  · simp [div2, hal, hbl]
  · intro row hrow
    obtain ⟨i, hi, hrw⟩ := mem_getD hrow []
    have hia : i < a.length := by
      simpa [div2, hal, hbl] using hi
    have hib : i < b.length := by
      simpa [div2, hal, hbl] using hi
    rw [← hrw, div2, getD_zipWith _ a b i hia hib [] [] []]
    rw [List.length_zipWith, har (a.getD i []) (getD_mem hia []),
      hbr (b.getD i []) (getD_mem hib [])]
    simp

theorem hasShape3_div3 {a b : Arr3} {t r c : ℕ} (ha : HasShape3 a t r c)
    (hb : HasShape3 b t r c) : HasShape3 (div3 a b) t r c := by
  obtain ⟨hal, har⟩ := ha
  obtain ⟨hbl, hbr⟩ := hb
  constructor
  · simp [div3, hal, hbl]
  · intro sl hsl
    obtain ⟨i, hi, hrw⟩ := mem_getD hsl []
    have hia : i < a.length := by
      simpa [div3, hal, hbl] using hi
    have hib : i < b.length := by
      simpa [div3, hal, hbl] using hi
    rw [← hrw, div3, getD_zipWith _ a b i hia hib [] [] []]
    exact hasShape2_div2 (har (a.getD i []) (getD_mem hia []))
      (hbr (b.getD i []) (getD_mem hib []))

theorem length_grad1 (coords f : Arr1) : (grad1 coords f).length = f.length := by
  simp [grad1]

theorem head_length_of_shape {m : Arr2} {r c : ℕ} (hm : HasShape2 m r c)
    (hr : 0 < r) : (m.headD []).length = c := by
  obtain ⟨hml, hmr⟩ := hm
  cases m with
  | nil => rw [← hml] at hr; simp at hr
  | cons row rest => exact hmr row (by simp)

theorem hasShape2_gradAxis0 {m : Arr2} {r c : ℕ} (cy : Arr1)
    (hm : HasShape2 m r c) (hr : 0 < r) : HasShape2 (gradAxis0 m cy) r c := by
  have hhead := head_length_of_shape hm hr
  constructor
  · simp [gradAxis0, hm.1]
  · intro row hrow
    simp only [gradAxis0] at hrow
    obtain ⟨i, hi, rfl⟩ := List.mem_map.mp hrow
    simp only [List.length_map, List.length_range]
    simpa using hhead

theorem hasShape2_gradAxis1 {m : Arr2} {r c : ℕ} (cx : Arr1)
    (hm : HasShape2 m r c) : HasShape2 (gradAxis1 m cx) r c := by
  obtain ⟨hml, hmr⟩ := hm
  constructor
  · simp [gradAxis1, hml]
  · intro row hrow
    obtain ⟨orig, ho, rfl⟩ := List.mem_map.mp hrow
    simp [length_grad1, hmr orig ho]

/-- Successful `np.gradient` call: the checks passed (coordinate lengths
match the axes, both axes have at least 3 points) and the two components
have the shape of the input. -/
theorem np_gradient2_ok {m : Arr2} {cy cx : Arr1} {g0 g1 : Arr2} {r c : ℕ}
    (hm : HasShape2 m r c) (h : np_gradient2 m cy cx = .ok (g0, g1)) :
    HasShape2 g0 r c ∧ HasShape2 g1 r c ∧
      cy.length = r ∧ cx.length = c ∧ 3 ≤ r ∧ 3 ≤ c := by
  unfold np_gradient2 at h
  split at h
  · simp at h
  · next hlens =>
    split at h
    · simp at h
    · next hsmall =>
      push_neg at hlens hsmall
      simp only [Except.ok.injEq, Prod.mk.injEq] at h
      obtain ⟨h0, h1⟩ := h
      have hr3 : 3 ≤ r := by
        have := hsmall.1; rw [hm.1] at this; omega
      have hhead : (m.headD []).length = c :=
        head_length_of_shape hm (by omega)
      have hcy : cy.length = r := by rw [hlens.1, hm.1]
      have hcx : cx.length = c := by rw [hlens.2, hhead]
      have hc3 : 3 ≤ c := by
        have := hsmall.2; rw [hhead] at this; omega
      subst h0 h1
      exact ⟨hasShape2_gradAxis0 cy hm (by omega), hasShape2_gradAxis1 cx hm,
        hcy, hcx, hr3, hc3⟩

theorem getD_of_get? {α : Type} {l : List α} {i : ℕ} {x : α}
    (h : l.get? i = some x) (dflt : α) : l.getD i dflt = x := by
  induction l generalizing i with
  | nil => simp at h
  | cons a rest ih =>
    cases i with
    | zero => simp at h; simp [h]
    | succ n => simpa using ih (by simpa using h)

theorem stackOne_shape {fl : List H5File} {nt ny nx : ℕ} {k : String}
    {a3 : Arr3} (h : stackOne fl nt ny nx k = .ok a3) :
    HasShape3 a3 nt ny nx := by
  obtain ⟨hlen, helem⟩ := stackOne_ok h
  refine ⟨hlen, ?_⟩
  intro sl hsl
  obtain ⟨t, ht, rfl⟩ := mem_getD hsl []
  rw [hlen] at ht
  obtain ⟨f, a, hf, hl, hgd, hs⟩ := helem t ht
  rw [hgd]
  exact hs

theorem stack_entry {fl : List H5File} {nt ny nx : ℕ} {k : String}
    {a3 : Arr3} (h : stackOne fl nt ny nx k = .ok a3) {t : ℕ} (ht : t < nt) :
    a3.getD t [] = h5Field fl t k := by
  obtain ⟨hlen, helem⟩ := stackOne_ok h
  obtain ⟨f, a, hf, hl, hgd, hs⟩ := helem t ht
  rw [hgd]
  unfold h5Field
  rw [getD_of_get? hf defH5, hl]
  rfl

theorem stack_eq_map {fl : List H5File} {nt ny nx : ℕ} {k : String}
    {a3 : Arr3} (h : stackOne fl nt ny nx k = .ok a3) :
    a3 = (List.range nt).map (fun t => h5Field fl t k) := by
  have hlen : a3.length = nt := (stackOne_ok h).1
  apply List.ext_get (by simp [hlen])
  intro n h1 h2
  rw [← getD_eq_get a3 n h1 [], ← getD_eq_get _ n h2 []]
  rw [getD_map _ _ n (by simpa using h2) 0 []]
  rw [getD_range (by simpa using h2) 0]
  exact stack_entry h (by rw [← hlen]; exact h1)

theorem at3_div3 {A B : Arr3} {nt ny nx t i j : ℕ}
    (hA : HasShape3 A nt ny nx) (hB : HasShape3 B nt ny nx)
    (ht : t < nt) (hi : i < ny) (hj : j < nx) :
    at3 (div3 A B) t i j = FVal.div (at3 A t i j) (at3 B t i j) := by
  have htA : t < A.length := by rw [hA.1]; exact ht
  have htB : t < B.length := by rw [hB.1]; exact ht
  have hsA : HasShape2 (A.getD t []) ny nx := hA.2 _ (getD_mem htA [])
  have hsB : HasShape2 (B.getD t []) ny nx := hB.2 _ (getD_mem htB [])
  have hiA : i < (A.getD t []).length := by rw [hsA.1]; exact hi
  have hiB : i < (B.getD t []).length := by rw [hsB.1]; exact hi
  have hjA : j < ((A.getD t []).getD i []).length := by
    rw [hsA.2 _ (getD_mem hiA [])]; exact hj
  have hjB : j < ((B.getD t []).getD i []).length := by
    rw [hsB.2 _ (getD_mem hiB [])]; exact hj
  unfold at3 at2
  rw [show div3 A B = List.zipWith div2 A B from rfl]
  rw [getD_zipWith div2 A B t htA htB [] [] []]
  rw [show div2 (A.getD t []) (B.getD t [])
      = List.zipWith (List.zipWith FVal.div) (A.getD t []) (B.getD t [])
      from rfl]
  rw [getD_zipWith (List.zipWith FVal.div) _ _ i hiA hiB [] [] []]
  rw [getD_zipWith FVal.div _ _ j hjA hjB FVal.nan FVal.nan FVal.nan]

theorem div_by_zeroF {a b : FVal} (hb : b.isZeroF = true) :
    (FVal.div a b).isInf = true ∨ (FVal.div a b).isNaN = true := by
  cases b with
  | fin q =>
    have hq : q.isZero = true := by simpa [FVal.isZeroF] using hb
    cases a with
    | fin p =>
      by_cases hp : p.isZero = true
      · right; simp [FVal.div, hq, hp, FVal.isNaN]
      · left
        simp only [FVal.div, hq, if_true, hp]
        simp only [Bool.not_eq_true] at hp
        rw [if_neg (by simp [hp])]
        by_cases hpos : p.isPos = true
        · simp [hpos, FVal.isInf]
        · rw [if_neg (by simp [Bool.not_eq_true] at hpos; simp [hpos])]
          simp [FVal.isInf]
    | pinf =>
      left
      cases hn : q.isNeg <;> simp [FVal.div, hn, FVal.isInf]
    | ninf =>
      left
      cases hn : q.isNeg <;> simp [FVal.div, hn, FVal.isInf]
    | nan => right; simp [FVal.div, FVal.isNaN]
  | pinf => simp [FVal.isZeroF] at hb
  | ninf => simp [FVal.isZeroF] at hb
  | nan => simp [FVal.isZeroF] at hb

theorem find_ok {d : Dir} {fh : List H5File} {fx : List XmfFile} {time : List Q}
    (h : find_files_and_time d = .ok (fh, fx, time)) :
    d.isDir = true ∧ fh = sortByName H5File.name d.h5Files ∧
      fx = sortByName XmfFile.name d.xmfFiles ∧
      scanTimes fx fh.length = some time := by
  unfold find_files_and_time at h
  split at h
  · simp at h
  · next hd =>
    split at h
    · simp at h
    · next time2 hscan =>
      simp only [Except.ok.injEq, Prod.mk.injEq] at h
      obtain ⟨h1, h2, h3⟩ := h
      subst h1 h2 h3
      refine ⟨?_, rfl, rfl, hscan⟩
      revert hd
      cases d.isDir <;> simp

theorem read_grid_ok {d : Dir} {x2 y2 : Arr2} {x1 y1 : Arr1}
    (h : read_grid d = .ok (x2, y2, x1, y1)) :
    d.isDir = true ∧
      (∃ g rest, sortByName GridFile.name d.gridFiles = g :: rest ∧
        x2 = g.U01 ∧ y2 = g.U02) ∧
      x2.head? = some x1 ∧ mapO List.head? y2 = some y1 := by
  unfold read_grid at h
  split at h
  · simp at h
  · next hd =>
    split at h
    · simp at h
    · next g rest hsort =>
      split at h
      · next xh yh hx hy =>
        simp only [Except.ok.injEq, Prod.mk.injEq] at h
        obtain ⟨h1, h2, h3, h4⟩ := h
        subst h1 h2 h3 h4
        exact ⟨by revert hd; cases d.isDir <;> simp,
          ⟨g, rest, hsort, rfl, rfl⟩, hx, hy⟩
      · simp at h

/-- Whenever `read_directory` fails inside `hifi_class.__init__`, the
`except` wrapper of `_get_file_list_and_time` evaluates the unbound name
`postpath` and the construction surfaces a `NameError`. -/
theorem wrapper_nameError {d : Dir} {g : Arr2 × Arr2 × Arr1 × Arr1} {e : Err}
    (hd : d.isDir = true) (hg : read_grid d = .ok g)
    (hrd : read_directory d = .error e) :
    hifi_init d .pynone = .error .nameErrorPostpath := by
  obtain ⟨x2, y2, x1, y1⟩ := g
  simp [hifi_init, PyObj.isStrOrNone, hd, hg, hrd]

theorem hasShape3_computeB {az : Arr3} {y x : Arr1} {bx byA : Arr3}
    {nt ny nx : ℕ} (haz : HasShape3 az nt ny nx)
    (h : computeB az y x = .ok (bx, byA)) :
    HasShape3 bx nt ny nx ∧ HasShape3 byA nt ny nx := by
  obtain ⟨hbxlen, hbylen, helem⟩ := computeB_ok h
  constructor
  · refine ⟨by rw [hbxlen, haz.1], ?_⟩
    intro sl hsl
    obtain ⟨t, ht, rfl⟩ := mem_getD hsl []
    have ht2 : t < az.length := by rw [← hbxlen]; exact ht
    have hsl2 : HasShape2 (az.getD t []) ny nx := haz.2 _ (getD_mem ht2 [])
    exact (np_gradient2_ok hsl2 (helem t ht2)).1
  · refine ⟨by rw [hbylen, haz.1], ?_⟩
    intro sl hsl
    obtain ⟨t, ht, rfl⟩ := mem_getD hsl []
    have ht2 : t < az.length := by rw [← hbylen]; exact ht
    have hsl2 : HasShape2 (az.getD t []) ny nx := haz.2 _ (getD_mem ht2 [])
    exact (np_gradient2_ok hsl2 (helem t ht2)).2.1

theorem read_directory_of_mismatch {d : Dir} {fh : List H5File}
    {fx : List XmfFile} {time : List Q}
    (hf : find_files_and_time d = .ok (fh, fx, time))
    (hne : fh.length ≠ fx.length) :
    read_directory d = .error .countMismatch := by
  have hd := (find_ok hf).1
  simp [read_directory, hd, hf, hne]

theorem read_directory_error_exists {d : Dir} (hd : d.isDir = true)
    (hne : d.h5Files.length ≠ d.xmfFiles.length) :
    ∃ e, read_directory d = .error e := by
  cases hf : find_files_and_time d with
  | error e => exact ⟨e, by simp [read_directory, hd, hf]⟩
  | ok r =>
    obtain ⟨fh, fx, time⟩ := r
    obtain ⟨-, hfh, hfx, -⟩ := find_ok hf
    refine ⟨.countMismatch, read_directory_of_mismatch hf ?_⟩
    rw [hfh, hfx, length_sortByName, length_sortByName]
    exact hne

/-- C1, counterexample to the claim as stated: on the example directory
(where `Az = y`, so `∂Az/∂y = 1` and `∂Az/∂x = 0` everywhere) the
constructed `By` is NOT gradient component 0 (`∂Az/∂y`): the source
assigns component 0 to `Bx` (io.py:238) and component 1 to `By`
(io.py:239), the opposite pairing of the claim. -/
theorem C1_counterexample : ¬ ClaimC1 exDir .pynone := by
  intro h
  have h2 := h exDS 0 (c33 1) (c33 0) (by decide) (by decide) (by decide)
  exact absurd h2.1 (by decide)

/-- C1 (amended): for every constructed dataset and every timestep `t`,
the per-timestep second-order `np.gradient` of `Az[t]` with respect to
`(y, x)` is assigned with `Bx[t]` = the `∂Az/∂y` component (component 0)
and `By[t]` = the `∂Az/∂x` component (component 1) — the pairing the
source actually performs, swapped relative to the claim. -/
theorem C1_theorem (d : Dir) (simID : PyObj) (ds : Dataset) (t : ℕ)
    (g0 g1 : Arr2) (h : hifi_init d simID = .ok ds) (ht : t < ds.Nt)
    (hg : np_gradient2 (ds.Az.getD t []) ds.y ds.x = .ok (g0, g1)) :
    ds.Bx.getD t [] = g0 ∧ ds.By.getD t [] = g1 := by
  obtain ⟨x2, y2, l, hgr, hrd, hst, hni, hAz, hBz, hVix, hViy, hViz, hJz,
    hpp, hnn, hVnx, hVny, hVnz, hpn, hB, hname⟩ := hifi_init_ok h
  obtain ⟨hbxlen, hbylen, helem⟩ := computeB_ok hB
  obtain ⟨hl13, hstone⟩ := stackAll_ok hst
  have hu2 := stackOne_shape (hstone 1 (by omega))
  have hAzlen : ds.Az.length = ds.Nt := by
    rw [hAz]
    simpa [neg3, Dataset.Nt] using hu2.1
  have ht2 : t < ds.Az.length := by rw [hAzlen]; exact ht
  have h3 := helem t ht2
  rw [hg] at h3
  simp only [Except.ok.injEq, Prod.mk.injEq] at h3
  exact ⟨h3.1.symm, h3.2.symm⟩

/-- C1 witness: the amended theorem evaluated on the example directory. -/
theorem C1_theorem_witness :
    hifi_init exDir .pynone = .ok exDS ∧ 0 < exDS.Nt ∧
      np_gradient2 (exDS.Az.getD 0 []) exDS.y exDS.x = .ok (c33 1, c33 0) ∧
      exDS.Bx.getD 0 [] = c33 1 ∧ exDS.By.getD 0 [] = c33 0 :=
  ⟨by decide, by decide, by decide,
    C1_theorem exDir .pynone exDS 0 (c33 1) (c33 0) (by decide) (by decide)
      (by decide)⟩

/-- C9: constructing with `simID = None` (also the default) yields
`name = "no ID"`, and constructing with a non-string, non-`None` `simID`
fails with the `TypeError` (`invalidName`) for EVERY candidate directory,
existent or not — i.e. before any directory validation or file access. -/
theorem C9_theorem (d : Dir) (ds : Dataset) (k : ℤ) :
    (hifi_init d .pynone = .ok ds → ds.name = "no ID") ∧
      hifi_init d (.pyint k) = .error .invalidName := by
  constructor
  · intro h
    obtain ⟨x2, y2, l, hgr, hrd, hst, hni, hAz, hBz, hVix, hViy, hViz, hJz,
      hpp, hnn, hVnx, hVny, hVnz, hpn, hB, hname⟩ := hifi_init_ok h
    simpa [nameOf] using hname
  · simp [hifi_init, PyObj.isStrOrNone]

/-- C9 witness: the default name on the example directory, and the
`TypeError` for an integer `simID`. -/
theorem C9_theorem_witness :
    hifi_init exDir .pynone = .ok exDS ∧ exDS.name = "no ID" ∧
      hifi_init exDir (.pyint 0) = .error .invalidName :=
  ⟨by decide, (C9_theorem exDir exDS 0).1 (by decide),
    (C9_theorem exDir exDS 0).2⟩

/-- C10: whenever `read_directory` fails during construction (after a
successful grid read), the `except` wrapper of
`_get_file_list_and_time` references the unbound name `postpath`
(io.py:194) and the construction surfaces a `NameError`
(`nameErrorPostpath`), not the intended `IOError`. -/
theorem C10_theorem (d : Dir) (g : Arr2 × Arr2 × Arr1 × Arr1) (e : Err)
    (hd : d.isDir = true) (hg : read_grid d = .ok g)
    (hrd : read_directory d = .error e) :
    hifi_init d .pynone = .error .nameErrorPostpath :=
  wrapper_nameError hd hg hrd

/-- C10 witness: on the count-mismatch directory, `read_directory` fails
with the count mismatch and construction surfaces the `NameError`. -/
theorem C10_theorem_witness :
    mismatchDir.isDir = true ∧ read_grid mismatchDir = .ok gridVal ∧
      read_directory mismatchDir = .error .countMismatch ∧
      hifi_init mismatchDir .pynone = .error .nameErrorPostpath :=
  ⟨rfl, by decide, by decide,
    C10_theorem mismatchDir gridVal .countMismatch rfl (by decide)
      (by decide)⟩

/-- C3: for every constructed dataset, `Az` is exactly the elementwise
sign flip (`-1 *`, io.py:218) of the stacked `U02`, while `ni, Bz, Jz,
pp, nn, pn` are the stacked `U01, U03, U07, U08, U09, U13` with no
transformation (io.py:217-229); the stacked field for key `k` is the
list of `file_list[t][k]` slices over `t < Nt`. -/
theorem C3_theorem (d : Dir) (simID : PyObj) (ds : Dataset)
    (h : hifi_init d simID = .ok ds) :
    ds.Az = neg3 ((List.range ds.Nt).map
        (fun t => h5Field ds.file_list t "U02")) ∧
    ds.ni = (List.range ds.Nt).map (fun t => h5Field ds.file_list t "U01") ∧
    ds.Bz = (List.range ds.Nt).map (fun t => h5Field ds.file_list t "U03") ∧
    ds.Jz = (List.range ds.Nt).map (fun t => h5Field ds.file_list t "U07") ∧
    ds.pp = (List.range ds.Nt).map (fun t => h5Field ds.file_list t "U08") ∧
    ds.nn = (List.range ds.Nt).map (fun t => h5Field ds.file_list t "U09") ∧
    ds.pn = (List.range ds.Nt).map (fun t => h5Field ds.file_list t "U13")
    := by
  obtain ⟨x2, y2, l, hgr, hrd, hst, hni, hAz, hBz, hVix, hViy, hViz, hJz,
    hpp, hnn, hVnx, hVny, hVnz, hpn, hB, hname⟩ := hifi_init_ok h
  obtain ⟨hl13, hstone⟩ := stackAll_ok hst
  refine ⟨?_, ?_, ?_, ?_, ?_, ?_, ?_⟩
  · rw [hAz, stack_eq_map (hstone 1 (by omega))]; rfl
  · rw [hni, stack_eq_map (hstone 0 (by omega))]; rfl
  · rw [hBz, stack_eq_map (hstone 2 (by omega))]; rfl
  · rw [hJz, stack_eq_map (hstone 6 (by omega))]; rfl
  · rw [hpp, stack_eq_map (hstone 7 (by omega))]; rfl
  · rw [hnn, stack_eq_map (hstone 8 (by omega))]; rfl
  · rw [hpn, stack_eq_map (hstone 12 (by omega))]; rfl

/-- C3 witness: the sign-flip and alias identities on the example
directory. -/
theorem C3_theorem_witness :
    hifi_init exDir .pynone = .ok exDS ∧
      exDS.Az = neg3 ((List.range exDS.Nt).map
        (fun t => h5Field exDS.file_list t "U02")) ∧
      exDS.ni = (List.range exDS.Nt).map
        (fun t => h5Field exDS.file_list t "U01") ∧
      exDS.pn = (List.range exDS.Nt).map
        (fun t => h5Field exDS.file_list t "U13") :=
  ⟨by decide, (C3_theorem exDir .pynone exDS (by decide)).1,
    (C3_theorem exDir .pynone exDS (by decide)).2.1,
    (C3_theorem exDir .pynone exDS (by decide)).2.2.2.2.2.2⟩

/-- C4: for every constructed dataset, all fifteen physical field
attributes have shape exactly `(Nt, Ny, Nx)`, and the scalar metadata
`Nx`, `Ny`, `Nt` are computed on access (`Dataset.Nx/Ny/Nt` are functions,
not stored record fields) as `len(x)`, `len(y)`, `len(time)`. -/
theorem C4_theorem (d : Dir) (simID : PyObj) (ds : Dataset)
    (h : hifi_init d simID = .ok ds) :
    ds.Nx = ds.x.length ∧ ds.Ny = ds.y.length ∧ ds.Nt = ds.time.length ∧
      ∀ fld ∈ [ds.ni, ds.Az, ds.Bz, ds.Vix, ds.Viy, ds.Viz, ds.Jz, ds.pp,
        ds.nn, ds.Vnx, ds.Vny, ds.Vnz, ds.pn, ds.Bx, ds.By],
        HasShape3 fld ds.Nt ds.Ny ds.Nx := by
  obtain ⟨x2, y2, l, hgr, hrd, hst, hni, hAz, hBz, hVix, hViy, hViz, hJz,
    hpp, hnn, hVnx, hVny, hVnz, hpn, hB, hname⟩ := hifi_init_ok h
  obtain ⟨hl13, hstone⟩ := stackAll_ok hst
  have hs : ∀ i, i < 13 → HasShape3 (l.getD i []) ds.Nt ds.Ny ds.Nx :=
    fun i hi => stackOne_shape (hstone i hi)
  have hAzs : HasShape3 ds.Az ds.Nt ds.Ny ds.Nx := by
    rw [hAz]; exact hasShape3_neg3 (hs 1 (by omega))
  have hBs := hasShape3_computeB hAzs hB
  refine ⟨rfl, rfl, rfl, ?_⟩
  intro fld hf
  simp only [List.mem_cons, List.not_mem_nil, or_false] at hf
  rcases hf with rfl|rfl|rfl|rfl|rfl|rfl|rfl|rfl|rfl|rfl|rfl|rfl|rfl|rfl|rfl
  · rw [hni]; exact hs 0 (by omega)
  · exact hAzs
  · rw [hBz]; exact hs 2 (by omega)
  · rw [hVix]; exact hasShape3_div3 (hs 3 (by omega)) (hs 0 (by omega))
  · rw [hViy]; exact hasShape3_div3 (hs 4 (by omega)) (hs 0 (by omega))
  · rw [hViz]; exact hasShape3_div3 (hs 5 (by omega)) (hs 0 (by omega))
  · rw [hJz]; exact hs 6 (by omega)
  · rw [hpp]; exact hs 7 (by omega)
  · rw [hnn]; exact hs 8 (by omega)
  · rw [hVnx]; exact hasShape3_div3 (hs 9 (by omega)) (hs 0 (by omega))
  · rw [hVny]; exact hasShape3_div3 (hs 10 (by omega)) (hs 0 (by omega))
  · rw [hVnz]; exact hasShape3_div3 (hs 11 (by omega)) (hs 0 (by omega))
  · rw [hpn]; exact hs 12 (by omega)
  · exact hBs.1
  · exact hBs.2

/-- C4 witness: the shape and metadata identities on the example
directory, which is a one-timestep dataset (`Nt = 1`). -/
theorem C4_theorem_witness :
    hifi_init exDir .pynone = .ok exDS ∧ exDS.Nt = 1 ∧ exDS.Ny = 3 ∧
      exDS.Nx = 3 ∧ exDS.Nx = exDS.x.length ∧ exDS.Ny = exDS.y.length ∧
      exDS.Nt = exDS.time.length ∧
      ∀ fld ∈ [exDS.ni, exDS.Az, exDS.Bz, exDS.Vix, exDS.Viy, exDS.Viz,
        exDS.Jz, exDS.pp, exDS.nn, exDS.Vnx, exDS.Vny, exDS.Vnz, exDS.pn,
        exDS.Bx, exDS.By], HasShape3 fld exDS.Nt exDS.Ny exDS.Nx :=
  ⟨by decide, by decide, by decide, by decide,
    (C4_theorem exDir .pynone exDS (by decide)).1,
    (C4_theorem exDir .pynone exDS (by decide)).2.1,
    (C4_theorem exDir .pynone exDS (by decide)).2.2.1,
    (C4_theorem exDir .pynone exDS (by decide)).2.2.2⟩

theorem stack_ratio_entry {fl : List H5File} {nt ny nx : ℕ}
    {kNum kDen : String} {sNum sDen : Arr3}
    (hNum : stackOne fl nt ny nx kNum = .ok sNum)
    (hDen : stackOne fl nt ny nx kDen = .ok sDen)
    {t i j : ℕ} (ht : t < nt) (hi : i < ny) (hj : j < nx) :
    at3 (div3 sNum sDen) t i j
      = FVal.div (at2 (h5Field fl t kNum) i j) (at2 (h5Field fl t kDen) i j)
    := by
  rw [at3_div3 (stackOne_shape hNum) (stackOne_shape hDen) ht hi hj]
  unfold at3
  rw [stack_entry hNum ht, stack_entry hDen ht]

/-- C2: for every constructed dataset and every in-range `(t, i, j)`,
each velocity field entry is the plain float division of the matching
momentum stack entry by the `U01` stack entry (`Vix=U04/U01`,
`Viy=U05/U01`, `Viz=U06/U01`, `Vnx=U10/U01`, `Vny=U11/U01`,
`Vnz=U12/U01`, io.py:220-228), with no zero guard: wherever the `U01`
entry is the float zero the quotient is `inf` or `NaN` (the modelled
division is a total function, mirroring `np.divide`, which never raises —
note the witness constructs a dataset containing a zero `U01` entry
successfully). -/
theorem C2_theorem (d : Dir) (simID : PyObj) (ds : Dataset) (t i j : ℕ)
    (h : hifi_init d simID = .ok ds)
    (ht : t < ds.Nt) (hi : i < ds.Ny) (hj : j < ds.Nx) :
    ∀ p ∈ [(ds.Vix, "U04"), (ds.Viy, "U05"), (ds.Viz, "U06"),
      (ds.Vnx, "U10"), (ds.Vny, "U11"), (ds.Vnz, "U12")],
      at3 (Prod.fst p) t i j
          = FVal.div (at2 (h5Field ds.file_list t (Prod.snd p)) i j)
            (at2 (h5Field ds.file_list t "U01") i j) ∧
        ((at2 (h5Field ds.file_list t "U01") i j).isZeroF = true →
          (at3 (Prod.fst p) t i j).isInf = true ∨
            (at3 (Prod.fst p) t i j).isNaN = true) := by
  obtain ⟨x2, y2, l, hgr, hrd, hst, hni, hAz, hBz, hVix, hViy, hViz, hJz,
    hpp, hnn, hVnx, hVny, hVnz, hpn, hB, hname⟩ := hifi_init_ok h
  obtain ⟨hl13, hstone⟩ := stackAll_ok hst
  have hU01 := hstone 0 (by omega)
  intro p hp
  simp only [List.mem_cons, List.not_mem_nil, or_false] at hp
  rcases hp with rfl|rfl|rfl|rfl|rfl|rfl
  · have heq : at3 ds.Vix t i j
        = FVal.div (at2 (h5Field ds.file_list t "U04") i j)
          (at2 (h5Field ds.file_list t "U01") i j) := by
      rw [hVix]; exact stack_ratio_entry (hstone 3 (by omega)) hU01 ht hi hj
    exact ⟨heq, fun hz => by rw [heq]; exact div_by_zeroF hz⟩
  · have heq : at3 ds.Viy t i j
        = FVal.div (at2 (h5Field ds.file_list t "U05") i j)
          (at2 (h5Field ds.file_list t "U01") i j) := by
      rw [hViy]; exact stack_ratio_entry (hstone 4 (by omega)) hU01 ht hi hj
    exact ⟨heq, fun hz => by rw [heq]; exact div_by_zeroF hz⟩
  · have heq : at3 ds.Viz t i j
        = FVal.div (at2 (h5Field ds.file_list t "U06") i j)
          (at2 (h5Field ds.file_list t "U01") i j) := by
      rw [hViz]; exact stack_ratio_entry (hstone 5 (by omega)) hU01 ht hi hj
    exact ⟨heq, fun hz => by rw [heq]; exact div_by_zeroF hz⟩
  · have heq : at3 ds.Vnx t i j
        = FVal.div (at2 (h5Field ds.file_list t "U10") i j)
          (at2 (h5Field ds.file_list t "U01") i j) := by
      rw [hVnx]; exact stack_ratio_entry (hstone 9 (by omega)) hU01 ht hi hj
    exact ⟨heq, fun hz => by rw [heq]; exact div_by_zeroF hz⟩
  · have heq : at3 ds.Vny t i j
        = FVal.div (at2 (h5Field ds.file_list t "U11") i j)
          (at2 (h5Field ds.file_list t "U01") i j) := by
      rw [hVny]; exact stack_ratio_entry (hstone 10 (by omega)) hU01 ht hi hj
    exact ⟨heq, fun hz => by rw [heq]; exact div_by_zeroF hz⟩
  · have heq : at3 ds.Vnz t i j
        = FVal.div (at2 (h5Field ds.file_list t "U12") i j)
          (at2 (h5Field ds.file_list t "U01") i j) := by
      rw [hVnz]; exact stack_ratio_entry (hstone 11 (by omega)) hU01 ht hi hj
    exact ⟨heq, fun hz => by rw [heq]; exact div_by_zeroF hz⟩

/-- C2 witness: the example directory has `U01[0][2][2] = 0`,
construction succeeds anyway, and the velocity entry there evaluates to
`+inf`; the ratio identity is the theorem applied at `(0, 2, 2)`. -/
theorem C2_theorem_witness :
    hifi_init exDir .pynone = .ok exDS ∧ 0 < exDS.Nt ∧ 2 < exDS.Ny ∧
      2 < exDS.Nx ∧
      (at2 (h5Field exDS.file_list 0 "U01") 2 2).isZeroF = true ∧
      at3 exDS.Vix 0 2 2 = FVal.pinf ∧
      ∀ p ∈ [(exDS.Vix, "U04"), (exDS.Viy, "U05"), (exDS.Viz, "U06"),
        (exDS.Vnx, "U10"), (exDS.Vny, "U11"), (exDS.Vnz, "U12")],
        at3 (Prod.fst p) 0 2 2
            = FVal.div (at2 (h5Field exDS.file_list 0 (Prod.snd p)) 2 2)
              (at2 (h5Field exDS.file_list 0 "U01") 2 2) ∧
          ((at2 (h5Field exDS.file_list 0 "U01") 2 2).isZeroF = true →
            (at3 (Prod.fst p) 0 2 2).isInf = true ∨
              (at3 (Prod.fst p) 0 2 2).isNaN = true) :=
  ⟨by decide, by decide, by decide, by decide, by decide, by decide,
    C2_theorem exDir .pynone exDS 0 2 2 (by decide) (by decide) (by decide)
      (by decide)⟩

theorem getD_of_le {α : Type} {l : List α} {i : ℕ} (h : l.length ≤ i)
    (dflt : α) : l.getD i dflt = dflt := by
  induction l generalizing i with
  | nil => cases i <;> rfl
  | cons a rest ih =>
    cases i with
    | zero => simp at h
    | succ n => simpa using ih (by simpa using h)

theorem head?_some_getD {α : Type} {l : List α} {v : α}
    (h : l.head? = some v) (dflt : α) : l.getD 0 dflt = v := by
  cases l with
  | nil => simp at h
  | cons a rest => simp at h; simp [h]

/-- C5, counterexample to the claim as stated: `mismatchDir` has one data
file but two metadata files, and the second metadata file (no line index
5 at all) cannot be parsed; yet the scan succeeds, because the loop runs
over `range(len(files_h5))` (io.py:99) and never reads metadata files
beyond the data-file count — refuting "for every metadata file … skipping
no file". -/
theorem C5_counterexample : ¬ ClaimC5 mismatchDir := by
  intro h
  have h2 := h rfl 1 (by decide) (by decide)
  exact absurd h2 (by decide)

/-- C5 (amended): the scanner reads exactly the first `len(files_h5)`
metadata files in sorted order, taking line index 5 and character columns
18-30 and parsing them as a float (`parseLine`); any parse failure or
missing file among those aborts the entire scan with the single
`IOError` (`timestampParse`) and no partial results are returned, but
metadata files beyond the data-file count are skipped unread. -/
theorem C5_theorem (d : Dir) (hd : d.isDir = true) :
    (∀ i, i < (sortByName H5File.name d.h5Files).length →
        parseLine ((sortByName XmfFile.name d.xmfFiles).getD i defXmf).lines
            = none →
        find_files_and_time d = .error .timestampParse) ∧
      ((sortByName XmfFile.name d.xmfFiles).length
          < (sortByName H5File.name d.h5Files).length →
        find_files_and_time d = .error .timestampParse) ∧
      ∀ fh fx time, find_files_and_time d = .ok (fh, fx, time) →
        fh = sortByName H5File.name d.h5Files ∧
        fx = sortByName XmfFile.name d.xmfFiles ∧
        time.length = fh.length ∧
        ∀ i, i < fh.length →
          ∃ xf, fx.get? i = some xf ∧
            parseLine xf.lines = some (time.getD i Q.zero) := by
  have hscan_none : ∀ i, i < (sortByName H5File.name d.h5Files).length →
      parseLine ((sortByName XmfFile.name d.xmfFiles).getD i defXmf).lines
          = none →
      scanTimes (sortByName XmfFile.name d.xmfFiles)
        (sortByName H5File.name d.h5Files).length = none := by
    intro i hi hp
    unfold scanTimes
    apply mapO_none_of_mem (List.mem_range.mpr hi)
    by_cases hx : i < (sortByName XmfFile.name d.xmfFiles).length
    · have hq : (sortByName XmfFile.name d.xmfFiles).get? i
          = some ((sortByName XmfFile.name d.xmfFiles).getD i defXmf) := by
        rw [getD_eq_get _ _ hx]
        exact List.get?_eq_get hx
      rw [hq]
      exact hp
    · have hq : (sortByName XmfFile.name d.xmfFiles).get? i = none :=
        List.get?_eq_none.mpr (by omega)
      rw [hq]
  refine ⟨?_, ?_, ?_⟩
  · intro i hi hp
    have hs := hscan_none i hi hp
    simp [find_files_and_time, hd, hs]
  · intro hlt
    have hp : parseLine ((sortByName XmfFile.name d.xmfFiles).getD
        (sortByName XmfFile.name d.xmfFiles).length defXmf).lines = none := by
      rw [getD_of_le (le_refl _)]
      rfl
    have hs := hscan_none _ hlt hp
    simp [find_files_and_time, hd, hs]
  · intro fh fx time hok
    obtain ⟨-, hfh, hfx, hscan⟩ := find_ok hok
    subst hfh hfx
    unfold scanTimes at hscan
    obtain ⟨hlen, helem⟩ := mapO_ok hscan
    refine ⟨rfl, rfl, by simpa using hlen, ?_⟩
    intro i hi
    have h2 := helem i (by simpa using hi) 0 Q.zero
    rw [getD_range hi 0] at h2
    cases hg : (sortByName XmfFile.name d.xmfFiles).get? i with
    | none => rw [hg] at h2; simp at h2
    | some xf =>
      rw [hg] at h2
      exact ⟨xf, rfl, h2⟩

/-- C5 witness: a directory with one data file whose only metadata file
cannot be parsed; the scan aborts with the `IOError`. -/
theorem C5_theorem_witness :
    badTimeDir.isDir = true ∧
      0 < (sortByName H5File.name badTimeDir.h5Files).length ∧
      parseLine ((sortByName XmfFile.name badTimeDir.xmfFiles).getD 0
        defXmf).lines = none ∧
      find_files_and_time badTimeDir = .error .timestampParse :=
  ⟨rfl, by decide, by decide,
    (C5_theorem badTimeDir rfl).1 0 (by decide) (by decide)⟩

/-- C6, counterexample to the claim as stated: `mismatchDir` is a
directory with a grid file whose data-file count (1) differs from its
metadata-file count (2), yet construction fails with the wrapper's
`NameError` (see C10), not with the claimed `FileCountMismatch` class. -/
theorem C6_counterexample : ¬ ClaimC6 mismatchDir := by
  intro h
  have h2 := h.2.2.1 rfl (by decide) (by decide)
  exact absurd h2 (by decide)

/-- C6 (amended): a non-directory path fails with `NotADirectory` and a
directory with no grid file fails with `GridNotFound`, as claimed; but a
data/metadata count mismatch and the zero-data-file case surface a
`NameError` from the broken `except` wrapper (see C10), not the intended
errors — those appear only at the `read_directory` level
(`FileCountMismatch` when the scan succeeded, `EmptyDataset` when both
file lists are empty).  No dataset object is returned in any failing
case. -/
theorem C6_theorem (d : Dir) :
    (d.isDir = false → hifi_init d .pynone = .error .notADirectory) ∧
      (d.isDir = true → d.gridFiles = [] →
        hifi_init d .pynone = .error .gridNotFound) ∧
      (∀ g, d.isDir = true → read_grid d = .ok g →
        d.h5Files.length ≠ d.xmfFiles.length →
        hifi_init d .pynone = .error .nameErrorPostpath) ∧
      (∀ fh fx time, find_files_and_time d = .ok (fh, fx, time) →
        fh.length ≠ fx.length → read_directory d = .error .countMismatch) ∧
      (∀ g, d.isDir = true → read_grid d = .ok g → d.h5Files = [] →
        hifi_init d .pynone = .error .nameErrorPostpath) ∧
      (d.isDir = true → d.h5Files = [] → d.xmfFiles = [] →
        read_directory d = .error .emptyDataset) := by
  refine ⟨?_, ?_, ?_, ?_, ?_, ?_⟩
  · intro hd
    simp [hifi_init, PyObj.isStrOrNone, hd]
  · intro hd hgrid
    have hg : read_grid d = .error .gridNotFound := by
      simp [read_grid, hd, hgrid, sortByName]
    simp [hifi_init, PyObj.isStrOrNone, hd, hg]
  · intro g hd hg hne
    obtain ⟨e, he⟩ := read_directory_error_exists hd hne
    exact wrapper_nameError hd hg he
  · intro fh fx time hok hne
    exact read_directory_of_mismatch hok hne
  · intro g hd hg hh5
    have hfind : find_files_and_time d
        = .ok ([], sortByName XmfFile.name d.xmfFiles, []) := by
      simp [find_files_and_time, hd, hh5, sortByName, scanTimes, mapO]
    by_cases hx : d.xmfFiles = []
    · have hrd : read_directory d = .error .emptyDataset := by
        simp [read_directory, hd, hfind, hx, sortByName]
      exact wrapper_nameError hd hg hrd
    · have hne : ([] : List H5File).length
          ≠ (sortByName XmfFile.name d.xmfFiles).length := by
        simp only [List.length_nil, length_sortByName]
        intro hc
        exact hx (List.length_eq_zero.mp hc.symm)
      exact wrapper_nameError hd hg (read_directory_of_mismatch hfind hne)
  · intro hd hh5 hx
    have hfind : find_files_and_time d = .ok ([], [], []) := by
      simp [find_files_and_time, hd, hh5, hx, sortByName, scanTimes, mapO]
    simp [read_directory, hd, hfind]

/-- C6 witness: the four failing scenarios evaluated on concrete
directories. -/
theorem C6_theorem_witness :
    hifi_init notDir .pynone = .error .notADirectory ∧
      hifi_init noGridDir .pynone = .error .gridNotFound ∧
      hifi_init mismatchDir .pynone = .error .nameErrorPostpath ∧
      read_directory mismatchDir = .error .countMismatch ∧
      hifi_init noH5Dir .pynone = .error .nameErrorPostpath ∧
      read_directory emptyPostDir = .error .emptyDataset :=
  ⟨(C6_theorem notDir).1 rfl,
    (C6_theorem noGridDir).2.1 rfl rfl,
    (C6_theorem mismatchDir).2.2.1 gridVal rfl (by decide) (by decide),
    (C6_theorem mismatchDir).2.2.2.1 [postEx] [xmfEx, xmfBad] [mkQ 1 8]
      (by decide) (by decide),
    (C6_theorem noH5Dir).2.2.2.2.1 gridVal rfl (by decide) rfl,
    (C6_theorem emptyPostDir).2.2.2.2.2 rfl rfl rfl⟩

/-- C7: for every constructed dataset, `x` and `y` are the two 1D
projections returned by `read_grid`: `x` is row 0 of the first 2D
coordinate array (`U01`) of the first grid file in sorted order, and `y`
is column 0 of the second 2D coordinate array (`U02`) of that same
file. -/
theorem C7_theorem (d : Dir) (simID : PyObj) (ds : Dataset)
    (x2 y2 : Arr2) (x1 y1 : Arr1)
    (h : hifi_init d simID = .ok ds)
    (hg : read_grid d = .ok (x2, y2, x1, y1)) :
    ds.x = x1 ∧ ds.y = y1 ∧
      (∀ g rest, sortByName GridFile.name d.gridFiles = g :: rest →
        x2 = g.U01 ∧ y2 = g.U02) ∧
      x1 = x2.headD [] ∧ y1.length = y2.length ∧
      ∀ i, i < y2.length →
        y1.getD i FVal.nan = (y2.getD i []).getD 0 FVal.nan := by
  obtain ⟨x2b, y2b, l, hgr, hrd, hst, hni, hAz, hBz, hVix, hViy, hViz, hJz,
    hpp, hnn, hVnx, hVny, hVnz, hpn, hB, hname⟩ := hifi_init_ok h
  rw [hg] at hgr
  simp only [Except.ok.injEq, Prod.mk.injEq] at hgr
  obtain ⟨hx2, hy2, hx1, hy1⟩ := hgr
  obtain ⟨hdi, ⟨g, rest, hsort, hx2g, hy2g⟩, hhead, hmap⟩ := read_grid_ok hg
  refine ⟨hx1.symm, hy1.symm, ?_, ?_, ?_, ?_⟩
  · intro g2 rest2 hsort2
    rw [hsort] at hsort2
    simp only [List.cons.injEq] at hsort2
    rw [hx2g, hy2g, hsort2.1]
    exact ⟨rfl, rfl⟩
  · cases x2 with
    | nil => simp at hhead
    | cons a r =>
      simp only [List.head?_cons, Option.some.injEq] at hhead
      simp [hhead]
  · exact (mapO_ok hmap).1
  · intro i hi
    have h2 := (mapO_ok hmap).2 i hi [] FVal.nan
    exact (head?_some_getD h2 FVal.nan).symm

/-- C7 witness: the axis round-trip on the example directory. -/
theorem C7_theorem_witness :
    hifi_init exDir .pynone = .ok exDS ∧
      read_grid exDir = .ok (gridEx.U01, gridEx.U02, xAxisEx, xAxisEx) ∧
      exDS.x = xAxisEx ∧ exDS.y = xAxisEx ∧
      xAxisEx = gridEx.U01.headD [] ∧
      ∀ i, i < gridEx.U02.length →
        xAxisEx.getD i FVal.nan = (gridEx.U02.getD i []).getD 0 FVal.nan :=
  ⟨by decide, by decide,
    (C7_theorem exDir .pynone exDS gridEx.U01 gridEx.U02 xAxisEx xAxisEx
      (by decide) (by decide)).1,
    (C7_theorem exDir .pynone exDS gridEx.U01 gridEx.U02 xAxisEx xAxisEx
      (by decide) (by decide)).2.1,
    (C7_theorem exDir .pynone exDS gridEx.U01 gridEx.U02 xAxisEx xAxisEx
      (by decide) (by decide)).2.2.2.1,
    (C7_theorem exDir .pynone exDS gridEx.U01 gridEx.U02 xAxisEx xAxisEx
      (by decide) (by decide)).2.2.2.2.2⟩

/-- C8, counterexample to the claim as stated: `noH5Dir` has zero data
files but one metadata file; the scanner returns successfully, but its
metadata-file list is `[xmfEx]`, not empty — refuting "returns … with
empty file lists" for both lists. -/
theorem C8_counterexample : ¬ ClaimC8 noH5Dir := by
  intro h
  exact absurd (h rfl rfl) (by decide)

/-- C8 (amended): for every existing directory with zero data files the
scanner returns successfully — with empty data-file list and empty
timestamp array, while the metadata-file list holds whatever metadata
files exist — and the empty case is rejected only by the downstream
caller `read_directory`, which never returns success for it. -/
theorem C8_theorem (d : Dir) (hd : d.isDir = true) (hh5 : d.h5Files = []) :
    find_files_and_time d
        = .ok ([], sortByName XmfFile.name d.xmfFiles, []) ∧
      ∀ r, read_directory d ≠ .ok r := by
  have hfind : find_files_and_time d
      = .ok ([], sortByName XmfFile.name d.xmfFiles, []) := by
    simp [find_files_and_time, hd, hh5, sortByName, scanTimes, mapO]
  refine ⟨hfind, ?_⟩
  intro r hok
  by_cases hx : d.xmfFiles = []
  · simp [read_directory, hd, hfind, hx, sortByName] at hok
  · have hne : ([] : List H5File).length
        ≠ (sortByName XmfFile.name d.xmfFiles).length := by
      simp only [List.length_nil, length_sortByName]
      intro hc
      exact hx (List.length_eq_zero.mp hc.symm)
    simp [read_directory, hd, hfind, hne] at hok
    split at hok <;> simp at hok

/-- C8 witness: the scanner result and the downstream rejection on the
zero-data-file directory. -/
theorem C8_theorem_witness :
    noH5Dir.isDir = true ∧ noH5Dir.h5Files = [] ∧
      find_files_and_time noH5Dir = .ok ([], [xmfEx], []) ∧
      ∀ r, read_directory noH5Dir ≠ .ok r :=
  ⟨rfl, rfl, (C8_theorem noH5Dir rfl rfl).1, (C8_theorem noH5Dir rfl rfl).2⟩

end HiFiPy
